import Mathlib

/-!
Verification of the extraction-and-confidence pipeline of the
azure-ai-document-pipeline-python-sample repository.

The development shallowly embeds the two source files
`documents/services/document_data_extractor.py` and
`invoices/models/invoice.py`.  External collaborators (the pdf2image
renderer, the Document Intelligence layout service, the Azure OpenAI
chat client, and the confidence evaluators imported from the
`shared.confidence` package, which is not part of the repository) are
modelled as opaque function parameters bundled in `ExternalServices`,
so theorems quantify over all of their behaviours.  Python machine
values are modelled as follows: `bytes` as `List Nat`, `int` as `Int`,
`float` as `Rat` (exact decimal literals; IEEE rounding is out of
scope), `Optional[T]` as `Option T`, dictionaries as association
lists, and raising an exception as returning `Except.error`.
Python truthiness tests (`if x:`) on optional ints and strings are
modelled explicitly by `truthyInt` and `truthyStr`.
-/

/-- Python byte strings, modelled as lists of byte values. -/
def Bytes : Type := List Nat

instance : DecidableEq Bytes := by
  unfold Bytes
  infer_instance

/-- Python truthiness of an `Optional[int]`: `None` and `0` are falsy. -/
def truthyInt : Option Int → Bool
  | none => false
  | some n => n != 0

/-- Python truthiness of an `Optional[str]`: `None` and `""` are falsy. -/
def truthyStr : Option String → Bool
  | none => false
  | some s => s != ""

/-- Python list slicing index resolution: for a list of length `n`,
a slice bound `i` resolves to `n + i` clamped to `[0, n]` when negative,
and to `i` clamped to `n` otherwise. -/
def pyIndex (n : Nat) (i : Int) : Nat :=
  if i < 0 then (max 0 ((n : Int) + i)).toNat else min i.toNat n

/-- Python list slice `xs[a:b]`: elements from resolved index `a`
(inclusive) to resolved index `b` (exclusive); never raises. -/
def pySlice {α : Type} (xs : List α) (a b : Int) : List α :=
  (xs.take (pyIndex xs.length b)).drop (pyIndex xs.length a)

/-- Modelled from the spec: the reserved OVERALL key of a ConfidenceMap
(`OVERALL_CONFIDENCE_KEY` is imported from `shared.confidence.confidence_result`,
which is outside the repository). The concrete string is arbitrary; all
claims refer to it symbolically. -/
def OVERALL_CONFIDENCE_KEY : String := "_overall"

/-- A per-field confidence map (Python dict mapping field path strings to
float confidences), modelled as an association list. -/
def ConfidenceMap : Type := List (String × Rat)

/-- Dictionary lookup `m[k]` on a confidence map (first binding wins,
as in a Python dict with unique keys). -/
def ConfidenceMap.lookup (m : ConfidenceMap) (k : String) : Option Rat :=
  List.lookup k m

instance : Membership (String × Rat) ConfidenceMap :=
  inferInstanceAs (Membership (String × Rat) (List (String × Rat)))

/-- Modelled from the spec: `ConfidenceResult` from
`shared.confidence.confidence_result` (outside the repository), spec §3:
`{ data, confidence_scores, overall_confidence }`. -/
structure ConfidenceResult (R : Type) where
  data : R
  confidence_scores : ConfidenceMap
  overall_confidence : Rat

/-- `ExtractionConfidenceResult = ConfidenceResult[ResponseFormatT | None]`.
The `parsed is None` refusal path would raise inside `from_bytes` before a
result is built, so returned results always carry data. -/
def ExtractionConfidenceResult (R : Type) : Type := ConfidenceResult R

/-- A rendered document page (pdf2image output); `png` is the byte
content produced by `page.save(byteIO, format='PNG')`. -/
structure Page where
  png : List Nat
deriving DecidableEq

/-- The base64 alphabet. -/
def base64Chars : List Char :=
  "ABCDEFGHIJKLMNOPQRSTUVWXYZabcdefghijklmnopqrstuvwxyz0123456789+/".toList

/-- The base64 digit for a 6-bit value. -/
def b64c (n : Nat) : Char := base64Chars.getD n 'A'

/-- Standard base64 encoding of a byte list with `=` padding
(`base64.b64encode(...).decode('utf-8')`). -/
def base64Encode : List Nat → String
  | [] => ""
  | [a] => String.mk [b64c (a / 4 % 64), b64c (a % 4 * 16), '=', '=']
  | [a, b] => String.mk [b64c (a / 4 % 64), b64c (a % 4 * 16 + b / 16 % 16), b64c (b % 16 * 4), '=']
  | a :: b :: c :: rest =>
    String.mk [b64c (a / 4 % 64), b64c (a % 4 * 16 + b / 16 % 16),
               b64c (b % 16 * 4 + c / 64 % 4), b64c (c % 64)] ++ base64Encode rest

/-- The data URI built for one rendered page:
`f"data:image/png;base64,{base64_data}"`. -/
def pageImageUri (page : Page) : String :=
  "data:image/png;base64," ++ base64Encode page.png

/-- `DocumentContentFormat` from `azure.ai.documentintelligence.models`. -/
inductive DocumentContentFormat where
  | text
  | markdown
deriving DecidableEq

/-- The argument record of a `begin_analyze_document` call on the
Document Intelligence client (lines 78-84 of the extractor). -/
structure AnalyzeRequest where
  model_id : String
  body : Bytes
  pages : Option String
  output_content_format : DocumentContentFormat
  content_type : String
deriving DecidableEq

/-- The part of an `AnalyzeResult` the extractor consumes: the layout
`content` (markdown text, possibly absent). -/
structure AnalyzeResult where
  content : Option String
deriving DecidableEq

/-- One element of the `user_content` list of the chat request: either a
`{"type": "text", ...}` or a `{"type": "image_url", ...}` part. -/
inductive ContentPart where
  | text (s : String)
  | image_url (url : String)
deriving DecidableEq

/-- The argument record of the `client.beta.chat.completions.parse` call
(lines 113-131 of the extractor). The `response_format` schema argument
is reflected in the type parameter `R` of `ExternalServices`. -/
structure ChatRequest where
  model : String
  system_content : String
  user_content : List ContentPart
  max_tokens : Int
  temperature : Rat
  top_p : Rat
  logprobs : Bool
deriving DecidableEq

/-- One token of the returned log-probability trace. -/
structure TokenLogProb where
  token : String
  logprob : Rat
deriving DecidableEq

/-- `completion.choices[i]`: the schema-parsed message object plus the
token log-probability trace the confidence evaluator reads. -/
structure Choice (R : Type) where
  parsed : R
  logprobs_content : List TokenLogProb

/-- The completion object returned by the parse call. -/
structure Completion (R : Type) where
  choices : List (Choice R)

/-- `PyObj` stands for the plain Python dictionary produced by
`response_obj.model_dump()`; the confidence evaluators consume it
opaquely, so any carrier works. -/
def PyObj : Type := List (String × String)

/-- The external collaborators of the pipeline, bundled: the pdf2image
renderer, the layout-analysis call (`begin_analyze_document` followed by
`poller.result()`, returning `Except.error` when the service call
raises), the Azure OpenAI structured-output parse call, pydantic
`model_dump`, and the three functions imported from `shared.confidence`
(not part of the repository). Theorems quantify over all behaviours. -/
structure ExternalServices (R : Type) where
  convertFromBytes : Bytes → List Page
  analyzeDocument : AnalyzeRequest → Except String AnalyzeResult
  parseCompletion : ChatRequest → Except String (Completion R)
  modelDump : R → PyObj
  evalConfidenceOpenai : PyObj → Choice R → ConfidenceMap
  evalConfidenceDi : PyObj → AnalyzeResult → ConfidenceMap
  mergeConfidenceValues : ConfidenceMap → ConfidenceMap → ConfidenceMap

/-- `DocumentDataExtractorOptions`. `system_prompt` is set by
`__init__`, never caller-supplied; the remaining fields mirror the
constructor parameters. -/
structure DocumentDataExtractorOptions where
  system_prompt : String
  extraction_prompt : String
  page_start : Option Int
  page_end : Option Int
  openai_endpoint : String
  aiservices_endpoint : Option String
  deployment_name : String
  max_tokens : Int
  temperature : Rat
  top_p : Rat

/-- `DocumentDataExtractorOptions.__init__` with its default arguments
(`max_tokens=4096, temperature=0.1, top_p=0.1`) and the fixed
`system_prompt` assignment. -/
def DocumentDataExtractorOptions.init (extraction_prompt : String)
    (page_start page_end : Option Int) (aiservices_endpoint : Option String)
    (openai_endpoint deployment_name : String)
    (max_tokens : Int := 4096) (temperature : Rat := (0.1 : Rat))
    (top_p : Rat := (0.1 : Rat)) : DocumentDataExtractorOptions :=
  { system_prompt := "You are an AI assistant that extracts data from documents."
    extraction_prompt := extraction_prompt
    page_start := page_start
    page_end := page_end
    openai_endpoint := openai_endpoint
    aiservices_endpoint := aiservices_endpoint
    deployment_name := deployment_name
    max_tokens := max_tokens
    temperature := temperature
    top_p := top_p }

/-- The part of a `DocumentIntelligenceClient` the extractor observes:
the endpoint it was constructed with. -/
structure DocumentIntelligenceClient where
  endpoint : String

namespace DocumentDataExtractor

/-- `__get_document_intelligence_client__`: returns `None` when
`options.aiservices_endpoint` is falsy (`None` or `""`), otherwise a
client for that endpoint. -/
def get_document_intelligence_client (options : DocumentDataExtractorOptions) :
    Option DocumentIntelligenceClient :=
  if truthyStr options.aiservices_endpoint then
    some { endpoint := options.aiservices_endpoint.getD "" }
  else
    none

/-- Lines 71-74 of `from_bytes`: the page range string
`f"{page_start}-{page_end}"` when both options are truthy, `None`
otherwise. -/
def page_range_string (page_start page_end : Option Int) : Option String :=
  if truthyInt page_start && truthyInt page_end then
    some (toString (page_start.getD 0) ++ "-" ++ toString (page_end.getD 0))
  else
    none

/-- `__get_document_image_uris__`: rasterize all pages with pdf2image,
slice to `pages[page_start-1:page_end]` when both bounds are truthy, and
encode each remaining page as a base64 PNG data URI. -/
def get_document_image_uris (convert_from_bytes : Bytes → List Page)
    (document_bytes : Bytes) (page_start page_end : Option Int) : List String :=
  let pages := convert_from_bytes document_bytes
  let pages :=
    if truthyInt page_start && truthyInt page_end then
      pySlice pages (page_start.getD 0 - 1) (page_end.getD 0)
    else
      pages
  pages.map pageImageUri

/-- Lines 93-111 of `from_bytes`: build the `user_content` list by
appending the extraction prompt, then (when truthy) the layout
markdown, then one image part per image URI. -/
def build_user_content (extraction_prompt : String)
    (document_markdown : Option String) (image_uris : List String) :
    List ContentPart :=
  let user_content : List ContentPart := []
  let user_content := user_content ++ [ContentPart.text extraction_prompt]
  let user_content :=
    if truthyStr document_markdown then
      user_content ++ [ContentPart.text (document_markdown.getD "")]
    else
      user_content
  image_uris.foldl (fun acc uri => acc ++ [ContentPart.image_url uri]) user_content

/-- `DocumentDataExtractor.from_bytes`, lines 60-157. Control flow is
modelled exactly: a raising layout call, a raising parse call, an empty
`choices` list (`IndexError`) and a missing overall key (`KeyError`)
propagate as `Except.error`. Note that the parse call passes the
literals `4096`, `0.1`, `0.1` rather than the options fields. -/
def from_bytes {R : Type} (env : ExternalServices R) (document_bytes : Bytes)
    (options : DocumentDataExtractorOptions) :
    Except String (ExtractionConfidenceResult R) :=
  let di_client := get_document_intelligence_client options
  let page_range := page_range_string options.page_start options.page_end
  let layout_step : Except String (Option AnalyzeResult) :=
    match di_client with
    | some _ =>
      match env.analyzeDocument
          { model_id := "prebuilt-layout"
            body := document_bytes
            pages := page_range
            output_content_format := DocumentContentFormat.markdown
            content_type := "application/pdf" } with
      | Except.ok r => Except.ok (some r)
      | Except.error e => Except.error e
    | none => Except.ok none
  match layout_step with
  | Except.error e => Except.error e
  | Except.ok layout =>
    let document_markdown : Option String :=
      match layout with
      | some result => result.content
      | none => none
    let image_uris :=
      get_document_image_uris env.convertFromBytes document_bytes
        options.page_start options.page_end
    let user_content :=
      build_user_content options.extraction_prompt document_markdown image_uris
    let request : ChatRequest :=
      { model := options.deployment_name
        system_content := options.system_prompt
        user_content := user_content
        max_tokens := 4096
        temperature := (0.1 : Rat)
        top_p := (0.1 : Rat)
        logprobs := true }
    match env.parseCompletion request with
    | Except.error e => Except.error e
    | Except.ok completion =>
      match completion.choices.head? with
      | none => Except.error "IndexError: list index out of range"
      | some choice =>
        let response_obj := choice.parsed
        let response_obj_dict := env.modelDump response_obj
        let confidence_openai :=
          env.evalConfidenceOpenai response_obj_dict choice
        let confidence : ConfidenceMap :=
          match di_client, layout with
          | some _, some result =>
            env.mergeConfidenceValues
              (env.evalConfidenceDi response_obj_dict result)
              confidence_openai
          | _, _ => confidence_openai
        match confidence.lookup OVERALL_CONFIDENCE_KEY with
        | none => Except.error "KeyError"
        | some overall =>
          Except.ok
            { data := response_obj
              confidence_scores := confidence
              overall_confidence := overall }

end DocumentDataExtractor

/-!
Embedding of `invoices/models/invoice.py`. The pydantic models are
plain structures; every field is declared `Optional[...]` with no
default, so JSON validation requires each key to be present while its
value may be `null`. `model_dump_json` and `model_validate_json` are
modelled at the level of the JSON value tree (`Json`): a JSON document
string and its parse tree are in canonical correspondence, and numeric
values are carried exactly (`Rat`), so the mechanical
string-rendering layer is not re-modelled. -/

/-- A JSON value tree. JSON does not distinguish ints from floats, so a
single exact numeric constructor carries both (`quantity` serializes as
an integer-valued number, `amount` as an arbitrary one). -/
inductive Json where
  | null
  | str (s : String)
  | num (q : Rat)
  | arr (elems : List Json)
  | obj (fields : List (String × Json))

/-- Look up a key in a JSON object body; pydantic validation fails when
a declared field's key is missing (the invoice fields have no default). -/
def Json.getField (fields : List (String × Json)) (k : String) :
    Except String Json :=
  match fields.lookup k with
  | some v => Except.ok v
  | none => Except.error ("Field required: " ++ k)

/-- Serialize an `Optional[str]` field value. -/
def jsonOfOptStr : Option String → Json
  | none => Json.null
  | some s => Json.str s

/-- Validate an `Optional[str]` field value. -/
def parseOptStr : Json → Except String (Option String)
  | Json.null => Except.ok none
  | Json.str s => Except.ok (some s)
  | _ => Except.error "Input should be a valid string"

/-- Serialize an `Optional[float]` field value. -/
def jsonOfOptFloat : Option Rat → Json
  | none => Json.null
  | some q => Json.num q

/-- Validate an `Optional[float]` field value (any JSON number is a
valid float). -/
def parseOptFloat : Json → Except String (Option Rat)
  | Json.null => Except.ok none
  | Json.num q => Except.ok (some q)
  | _ => Except.error "Input should be a valid number"

/-- Serialize an `Optional[int]` field value (an integer-valued JSON
number). -/
def jsonOfOptInt : Option Int → Json
  | none => Json.null
  | some n => Json.num (n : Rat)

/-- Validate an `Optional[int]` field value: pydantic lax mode accepts
any integer-valued JSON number. -/
def parseOptInt : Json → Except String (Option Int)
  | Json.null => Except.ok none
  | Json.num q =>
    if q.den = 1 then Except.ok (some q.num)
    else Except.error "Input should be a valid integer"
  | _ => Except.error "Input should be a valid integer"

/-- `InvoiceCurrency`. -/
structure InvoiceCurrency where
  currency_code : Option String
  amount : Option Rat
deriving DecidableEq

/-- `InvoiceCurrency.to_json` (`model_dump_json`), as a JSON value. -/
def InvoiceCurrency.to_json (obj : InvoiceCurrency) : Json :=
  Json.obj
    [("currency_code", jsonOfOptStr obj.currency_code),
     ("amount", jsonOfOptFloat obj.amount)]

/-- `InvoiceCurrency.from_json` (`model_validate_json`). -/
def InvoiceCurrency.from_json (j : Json) : Except String InvoiceCurrency :=
  match j with
  | Json.obj fields => do
    let currency_code ← parseOptStr (← Json.getField fields "currency_code")
    let amount ← parseOptFloat (← Json.getField fields "amount")
    Except.ok { currency_code := currency_code, amount := amount }
  | _ => Except.error "Input should be an object"

/-- Serialize an `Optional[InvoiceCurrency]` field value. -/
def jsonOfOptCurrency : Option InvoiceCurrency → Json
  | none => Json.null
  | some c => c.to_json

/-- Validate an `Optional[InvoiceCurrency]` field value. -/
def parseOptCurrency : Json → Except String (Option InvoiceCurrency)
  | Json.null => Except.ok none
  | j => do
    let c ← InvoiceCurrency.from_json j
    Except.ok (some c)

/-- `InvoiceAddress`. -/
structure InvoiceAddress where
  street : Option String
  city : Option String
  state : Option String
  postal_code : Option String
  country : Option String
deriving DecidableEq

/-- `InvoiceAddress.to_json` (`model_dump_json`), as a JSON value. -/
def InvoiceAddress.to_json (obj : InvoiceAddress) : Json :=
  Json.obj
    [("street", jsonOfOptStr obj.street),
     ("city", jsonOfOptStr obj.city),
     ("state", jsonOfOptStr obj.state),
     ("postal_code", jsonOfOptStr obj.postal_code),
     ("country", jsonOfOptStr obj.country)]

/-- `InvoiceAddress.from_json` (`model_validate_json`). -/
def InvoiceAddress.from_json (j : Json) : Except String InvoiceAddress :=
  match j with
  | Json.obj fields => do
    let street ← parseOptStr (← Json.getField fields "street")
    let city ← parseOptStr (← Json.getField fields "city")
    let state ← parseOptStr (← Json.getField fields "state")
    let postal_code ← parseOptStr (← Json.getField fields "postal_code")
    let country ← parseOptStr (← Json.getField fields "country")
    Except.ok
      { street := street, city := city, state := state,
        postal_code := postal_code, country := country }
  | _ => Except.error "Input should be an object"

/-- Serialize an `Optional[InvoiceAddress]` field value. -/
def jsonOfOptAddress : Option InvoiceAddress → Json
  | none => Json.null
  | some a => a.to_json

/-- Validate an `Optional[InvoiceAddress]` field value. -/
def parseOptAddress : Json → Except String (Option InvoiceAddress)
  | Json.null => Except.ok none
  | j => do
    let a ← InvoiceAddress.from_json j
    Except.ok (some a)

/-- `InvoiceItem`. -/
structure InvoiceItem where
  product_code : Option String
  description : Option String
  quantity : Option Int
  tax : Option InvoiceCurrency
  unit_price : Option InvoiceCurrency
  total : Option InvoiceCurrency
deriving DecidableEq

/-- `InvoiceItem.to_json` (`model_dump_json`), as a JSON value. -/
def InvoiceItem.to_json (obj : InvoiceItem) : Json :=
  Json.obj
    [("product_code", jsonOfOptStr obj.product_code),
     ("description", jsonOfOptStr obj.description),
     ("quantity", jsonOfOptInt obj.quantity),
     ("tax", jsonOfOptCurrency obj.tax),
     ("unit_price", jsonOfOptCurrency obj.unit_price),
     ("total", jsonOfOptCurrency obj.total)]

/-- `InvoiceItem.from_json` (`model_validate_json`). -/
def InvoiceItem.from_json (j : Json) : Except String InvoiceItem :=
  match j with
  | Json.obj fields => do
    let product_code ← parseOptStr (← Json.getField fields "product_code")
    let description ← parseOptStr (← Json.getField fields "description")
    let quantity ← parseOptInt (← Json.getField fields "quantity")
    let tax ← parseOptCurrency (← Json.getField fields "tax")
    let unit_price ← parseOptCurrency (← Json.getField fields "unit_price")
    let total ← parseOptCurrency (← Json.getField fields "total")
    Except.ok
      { product_code := product_code, description := description,
        quantity := quantity, tax := tax, unit_price := unit_price,
        total := total }
  | _ => Except.error "Input should be an object"

/-- Serialize an `Optional[list[InvoiceItem]]` field value. -/
def jsonOfOptItems : Option (List InvoiceItem) → Json
  | none => Json.null
  | some items => Json.arr (items.map InvoiceItem.to_json)

/-- Validate a JSON array of invoice items elementwise. -/
def parseItemList : List Json → Except String (List InvoiceItem)
  | [] => Except.ok []
  | j :: rest => do
    let item ← InvoiceItem.from_json j
    let items ← parseItemList rest
    Except.ok (item :: items)

/-- Validate an `Optional[list[InvoiceItem]]` field value. -/
def parseOptItems : Json → Except String (Option (List InvoiceItem))
  | Json.null => Except.ok none
  | Json.arr elems => do
    let items ← parseItemList elems
    Except.ok (some items)
  | _ => Except.error "Input should be a valid list"

/-- `Invoice`. -/
structure Invoice where
  customer_name : Option String
  customer_tax_id : Option String
  customer_address : Option InvoiceAddress
  shipping_address : Option InvoiceAddress
  purchase_order : Option String
  invoice_id : Option String
  invoice_date : Option String
  due_date : Option String
  vendor_name : Option String
  vendor_address : Option InvoiceAddress
  vendor_tax_id : Option String
  remittance_address : Option InvoiceAddress
  subtotal : Option InvoiceCurrency
  total_discount : Option InvoiceCurrency
  total_tax : Option InvoiceCurrency
  invoice_total : Option InvoiceCurrency
  payment_term : Option String
  items : Option (List InvoiceItem)
deriving DecidableEq

/-- `Invoice.to_json` (`model_dump_json`), as a JSON value. -/
def Invoice.to_json (obj : Invoice) : Json :=
  Json.obj
    [("customer_name", jsonOfOptStr obj.customer_name),
     ("customer_tax_id", jsonOfOptStr obj.customer_tax_id),
     ("customer_address", jsonOfOptAddress obj.customer_address),
     ("shipping_address", jsonOfOptAddress obj.shipping_address),
     ("purchase_order", jsonOfOptStr obj.purchase_order),
     ("invoice_id", jsonOfOptStr obj.invoice_id),
     ("invoice_date", jsonOfOptStr obj.invoice_date),
     ("due_date", jsonOfOptStr obj.due_date),
     ("vendor_name", jsonOfOptStr obj.vendor_name),
     ("vendor_address", jsonOfOptAddress obj.vendor_address),
     ("vendor_tax_id", jsonOfOptStr obj.vendor_tax_id),
     ("remittance_address", jsonOfOptAddress obj.remittance_address),
     ("subtotal", jsonOfOptCurrency obj.subtotal),
     ("total_discount", jsonOfOptCurrency obj.total_discount),
     ("total_tax", jsonOfOptCurrency obj.total_tax),
     ("invoice_total", jsonOfOptCurrency obj.invoice_total),
     ("payment_term", jsonOfOptStr obj.payment_term),
     ("items", jsonOfOptItems obj.items)]

/-- `Invoice.from_json` (`model_validate_json`). -/
def Invoice.from_json (j : Json) : Except String Invoice :=
  match j with
  | Json.obj fields => do
    let customer_name ← parseOptStr (← Json.getField fields "customer_name")
    let customer_tax_id ← parseOptStr (← Json.getField fields "customer_tax_id")
    let customer_address ← parseOptAddress (← Json.getField fields "customer_address")
    let shipping_address ← parseOptAddress (← Json.getField fields "shipping_address")
    let purchase_order ← parseOptStr (← Json.getField fields "purchase_order")
    let invoice_id ← parseOptStr (← Json.getField fields "invoice_id")
    let invoice_date ← parseOptStr (← Json.getField fields "invoice_date")
    let due_date ← parseOptStr (← Json.getField fields "due_date")
    let vendor_name ← parseOptStr (← Json.getField fields "vendor_name")
    let vendor_address ← parseOptAddress (← Json.getField fields "vendor_address")
    let vendor_tax_id ← parseOptStr (← Json.getField fields "vendor_tax_id")
    let remittance_address ← parseOptAddress (← Json.getField fields "remittance_address")
    let subtotal ← parseOptCurrency (← Json.getField fields "subtotal")
    let total_discount ← parseOptCurrency (← Json.getField fields "total_discount")
    let total_tax ← parseOptCurrency (← Json.getField fields "total_tax")
    let invoice_total ← parseOptCurrency (← Json.getField fields "invoice_total")
    let payment_term ← parseOptStr (← Json.getField fields "payment_term")
    let items ← parseOptItems (← Json.getField fields "items")
    Except.ok
      { customer_name := customer_name, customer_tax_id := customer_tax_id,
        customer_address := customer_address,
        shipping_address := shipping_address,
        purchase_order := purchase_order, invoice_id := invoice_id,
        invoice_date := invoice_date, due_date := due_date,
        vendor_name := vendor_name, vendor_address := vendor_address,
        vendor_tax_id := vendor_tax_id,
        remittance_address := remittance_address, subtotal := subtotal,
        total_discount := total_discount, total_tax := total_tax,
        invoice_total := invoice_total, payment_term := payment_term,
        items := items }
  | _ => Except.error "Input should be an object"

/-!
Auxiliary definitions used by the theorem statements: the ConfidenceMap
well-formedness predicate of spec §3, and concrete collaborator
instantiations used to evaluate the pipeline on explicit inputs.
-/

/-- The spec §3 invariant of a well-formed confidence map: the OVERALL
key is present and every confidence value lies in `[0, 1]`. -/
def confidenceMapOk (m : ConfidenceMap) : Prop :=
  (∃ v, m.lookup OVERALL_CONFIDENCE_KEY = some v) ∧
  ∀ p ∈ m, 0 ≤ p.2 ∧ p.2 ≤ 1

/-- An environment whose chat parse call echoes the request back as the
parsed object (the response-format type is instantiated to
`ChatRequest`), making the request `from_bytes` sends observable in the
returned `data`; every other collaborator is an arbitrary parameter. -/
def echoEnv (conv : Bytes → List Page)
    (analyze : AnalyzeRequest → Except String AnalyzeResult)
    (dump : ChatRequest → PyObj)
    (evalO : PyObj → Choice ChatRequest → ConfidenceMap)
    (evalD : PyObj → AnalyzeResult → ConfidenceMap)
    (merge : ConfidenceMap → ConfidenceMap → ConfidenceMap) :
    ExternalServices ChatRequest where
  convertFromBytes := conv
  analyzeDocument := analyze
  parseCompletion := fun req =>
    Except.ok { choices := [{ parsed := req, logprobs_content := [] }] }
  modelDump := dump
  evalConfidenceOpenai := evalO
  evalConfidenceDi := evalD
  mergeConfidenceValues := merge

/-- A five-page rendered document: page k (1-based) has PNG content
`[k - 1]`. -/
def fivePages : List Page := [⟨[0]⟩, ⟨[1]⟩, ⟨[2]⟩, ⟨[3]⟩, ⟨[4]⟩]

/-- A renderer producing the five concrete pages for any input bytes. -/
def constConv5 : Bytes → List Page := fun _ => fivePages

/-- A layout service returning the given markdown content for every
request. -/
def okAnalyze (content : Option String) :
    AnalyzeRequest → Except String AnalyzeResult :=
  fun _ => Except.ok { content := content }

/-- A layout service raising the given error on every request. -/
def failAnalyze (e : String) : AnalyzeRequest → Except String AnalyzeResult :=
  fun _ => Except.error e

/-- A constant well-formed confidence map used in concrete
instantiations. -/
def halfMap : ConfidenceMap := [(OVERALL_CONFIDENCE_KEY, (1 : Rat) / 2)]

/-- A `model_dump` returning an empty dictionary, for concrete
instantiations. -/
def sampleDump : ChatRequest → PyObj := fun _ => []

/-- A constant OpenAI confidence evaluator, for concrete
instantiations. -/
def sampleEvalO : PyObj → Choice ChatRequest → ConfidenceMap :=
  fun _ _ => halfMap

/-- A constant layout confidence evaluator, for concrete
instantiations. -/
def sampleEvalD : PyObj → AnalyzeResult → ConfidenceMap :=
  fun _ _ => halfMap

/-- A merge that keeps its second argument, for concrete
instantiations. -/
def sampleMerge : ConfidenceMap → ConfidenceMap → ConfidenceMap :=
  fun _ m => m

/-- The concrete echo environment with the five-page renderer and the
given layout service. -/
def sampleEnv (analyze : AnalyzeRequest → Except String AnalyzeResult) :
    ExternalServices ChatRequest :=
  echoEnv constConv5 analyze sampleDump sampleEvalO sampleEvalD sampleMerge

/-- Concrete options with prompt "p", deployment "dep" and the given
page bounds and layout endpoint; decoding parameters are left at their
defaults. -/
def sampleOptions (ps pe : Option Int) (endpoint : Option String) :
    DocumentDataExtractorOptions :=
  DocumentDataExtractorOptions.init "p" ps pe endpoint "oe" "dep"

/-- The result `from_bytes` produces in the concrete no-endpoint echo
instantiation: the data slot carries the echoed chat request. -/
def c1Result : ExtractionConfidenceResult ChatRequest :=
  { data :=
      { model := "dep"
        system_content := "You are an AI assistant that extracts data from documents."
        user_content :=
          DocumentDataExtractor.build_user_content "p" none
            (DocumentDataExtractor.get_document_image_uris constConv5 []
              none none)
        max_tokens := 4096
        temperature := (0.1 : Rat)
        top_p := (0.1 : Rat)
        logprobs := true }
    confidence_scores := halfMap
    overall_confidence := (1 : Rat) / 2 }

/-- The result `from_bytes` produces in the concrete echo instantiation
with a configured endpoint and layout markdown "md": the data slot
carries the echoed chat request, whose content includes the markdown
text. -/
def mdResult : ExtractionConfidenceResult ChatRequest :=
  { data :=
      { model := "dep"
        system_content := "You are an AI assistant that extracts data from documents."
        user_content :=
          DocumentDataExtractor.build_user_content "p" (some "md")
            (DocumentDataExtractor.get_document_image_uris constConv5 []
              none none)
        max_tokens := 4096
        temperature := (0.1 : Rat)
        top_p := (0.1 : Rat)
        logprobs := true }
    confidence_scores := halfMap
    overall_confidence := (1 : Rat) / 2 }

/-!
Theorems. First the JSON round-trip development for the invoice
models, then the pipeline theorems.
-/

theorem parseOptStr_jsonOfOptStr (o : Option String) :
    parseOptStr (jsonOfOptStr o) = Except.ok o := by
  cases o <;> rfl

theorem parseOptFloat_jsonOfOptFloat (o : Option Rat) :
    parseOptFloat (jsonOfOptFloat o) = Except.ok o := by
  cases o <;> rfl

theorem parseOptInt_jsonOfOptInt (o : Option Int) :
    parseOptInt (jsonOfOptInt o) = Except.ok o := by
  cases o with
  | none => rfl
  | some n => simp [jsonOfOptInt, parseOptInt]

theorem currency_from_json_to_json (c : InvoiceCurrency) :
    InvoiceCurrency.from_json c.to_json = Except.ok c := by
  cases c
  simp [InvoiceCurrency.from_json, InvoiceCurrency.to_json, Json.getField,
    List.lookup, parseOptStr_jsonOfOptStr, parseOptFloat_jsonOfOptFloat,
    bind, Except.bind]

theorem parseOptCurrency_jsonOfOptCurrency (o : Option InvoiceCurrency) :
    parseOptCurrency (jsonOfOptCurrency o) = Except.ok o := by
  cases o with
  | none => rfl
  | some c =>
    simp [jsonOfOptCurrency, InvoiceCurrency.to_json, parseOptCurrency]
    have h := currency_from_json_to_json c
    simp [InvoiceCurrency.to_json] at h
    simp [h, bind, Except.bind]

theorem address_from_json_to_json (a : InvoiceAddress) :
    InvoiceAddress.from_json a.to_json = Except.ok a := by
  cases a
  simp [InvoiceAddress.from_json, InvoiceAddress.to_json, Json.getField,
    List.lookup, parseOptStr_jsonOfOptStr, bind, Except.bind]

theorem parseOptAddress_jsonOfOptAddress (o : Option InvoiceAddress) :
    parseOptAddress (jsonOfOptAddress o) = Except.ok o := by
  cases o with
  | none => rfl
  | some a =>
    simp [jsonOfOptAddress, InvoiceAddress.to_json, parseOptAddress]
    have h := address_from_json_to_json a
    simp [InvoiceAddress.to_json] at h
    simp [h, bind, Except.bind]

theorem item_from_json_to_json (it : InvoiceItem) :
    InvoiceItem.from_json it.to_json = Except.ok it := by
  cases it
  simp [InvoiceItem.from_json, InvoiceItem.to_json, Json.getField,
    List.lookup, parseOptStr_jsonOfOptStr, parseOptInt_jsonOfOptInt,
    parseOptCurrency_jsonOfOptCurrency, bind, Except.bind]

theorem parseItemList_map_to_json (items : List InvoiceItem) :
    parseItemList (items.map InvoiceItem.to_json) = Except.ok items := by
  induction items with
  | nil => rfl
  | cons it rest ih =>
    simp [parseItemList, item_from_json_to_json, ih, bind, Except.bind]

theorem parseOptItems_jsonOfOptItems (o : Option (List InvoiceItem)) :
    parseOptItems (jsonOfOptItems o) = Except.ok o := by
  cases o with
  | none => rfl
  | some items =>
    simp [jsonOfOptItems, parseOptItems, parseItemList_map_to_json,
      bind, Except.bind]

/-- C10: for every `Invoice` object (including nested addresses,
currencies and the item list), JSON serialization followed by
deserialization is the identity: `Invoice.from_json (Invoice.to_json
obj)` succeeds and returns `obj`. Numeric field values are carried
exactly at the JSON value level. -/
theorem invoice_json_roundtrip (obj : Invoice) :
    Invoice.from_json (Invoice.to_json obj) = Except.ok obj := by
  cases obj
  simp [Invoice.from_json, Invoice.to_json, Json.getField, List.lookup,
    parseOptStr_jsonOfOptStr, parseOptAddress_jsonOfOptAddress,
    parseOptCurrency_jsonOfOptCurrency, parseOptItems_jsonOfOptItems,
    bind, Except.bind]

theorem foldl_append_image_url (uris : List String) (acc : List ContentPart) :
    uris.foldl (fun a u => a ++ [ContentPart.image_url u]) acc
      = acc ++ uris.map ContentPart.image_url := by
  induction uris generalizing acc with
  | nil => simp
  | cons u rest ih => simp [List.foldl, ih]

/-- The `user_content` construction, in closed form: prompt text first,
then the markdown text exactly when it is truthy (present and
non-empty), then the image parts in order. -/
theorem build_user_content_eq (p : String) (md : Option String)
    (uris : List String) :
    DocumentDataExtractor.build_user_content p md uris
      = ContentPart.text p ::
        ((match md with
          | some s => if s = "" then [] else [ContentPart.text s]
          | none => []) ++ uris.map ContentPart.image_url) := by
  cases md with
  | none =>
    simp [DocumentDataExtractor.build_user_content, truthyStr,
      foldl_append_image_url]
  | some s =>
    by_cases hs : s = "" <;>
      simp [DocumentDataExtractor.build_user_content, truthyStr, hs,
        foldl_append_image_url]

/-- C1: when no layout-service endpoint is configured
(`options.aiservices_endpoint` absent), the confidence map returned by
`DocumentDataExtractor.from_bytes` is exactly the output of the OpenAI
(LLM-only) confidence evaluator on the parsed choice of the LLM-only
chat request (no layout markdown in the content), and no merge step is
applied: the result is unchanged under any replacement of the merge
function. -/
theorem c1_llm_only_when_no_endpoint {R : Type} (env : ExternalServices R)
    (b : Bytes) (options : DocumentDataExtractorOptions)
    (hend : options.aiservices_endpoint = none)
    (res : ExtractionConfidenceResult R)
    (hok : DocumentDataExtractor.from_bytes env b options = Except.ok res) :
    (∃ completion choice,
      env.parseCompletion
          { model := options.deployment_name
            system_content := options.system_prompt
            user_content :=
              DocumentDataExtractor.build_user_content options.extraction_prompt
                none
                (DocumentDataExtractor.get_document_image_uris
                  env.convertFromBytes b options.page_start options.page_end)
            max_tokens := 4096
            temperature := (0.1 : Rat)
            top_p := (0.1 : Rat)
            logprobs := true } = Except.ok completion ∧
      completion.choices.head? = some choice ∧
      res.data = choice.parsed ∧
      res.confidence_scores
        = env.evalConfidenceOpenai (env.modelDump choice.parsed) choice) ∧
    ∀ m, DocumentDataExtractor.from_bytes
        { env with mergeConfidenceValues := m } b options = Except.ok res := by
  have hdi : DocumentDataExtractor.get_document_intelligence_client options = none := by
    simp [DocumentDataExtractor.get_document_intelligence_client, hend, truthyStr]
  simp only [DocumentDataExtractor.from_bytes, hdi] at hok
  split at hok
  · cases hok
  · rename_i completion hpc
    split at hok
    · cases hok
    · rename_i choice hhead
      split at hok
      · cases hok
      · rename_i overall hlook
        injection hok with hres
        constructor
        · exact ⟨completion, choice, hpc, hhead, by rw [← hres], by rw [← hres]⟩
        · intro m
          simp only [DocumentDataExtractor.from_bytes, hdi]
          rw [show ({ env with mergeConfidenceValues := m } :
                ExternalServices R).parseCompletion = env.parseCompletion from rfl,
              show ({ env with mergeConfidenceValues := m } :
                ExternalServices R).convertFromBytes = env.convertFromBytes from rfl]
          rw [hpc]
          simp only [hhead, hlook]
          rw [show ({ env with mergeConfidenceValues := m } :
                ExternalServices R).evalConfidenceOpenai = env.evalConfidenceOpenai from rfl,
              show ({ env with mergeConfidenceValues := m } :
                ExternalServices R).modelDump = env.modelDump from rfl]
          exact congrArg Except.ok hres

/-- Witness for C1: the concrete no-endpoint echo instantiation
satisfies both hypotheses, and the conclusion holds there. -/
theorem c1_llm_only_witness :
    (sampleOptions none none none).aiservices_endpoint = none ∧
    DocumentDataExtractor.from_bytes (sampleEnv (okAnalyze none)) []
        (sampleOptions none none none) = Except.ok c1Result ∧
    ((∃ completion choice,
      (sampleEnv (okAnalyze none)).parseCompletion
          { model := (sampleOptions none none none).deployment_name
            system_content := (sampleOptions none none none).system_prompt
            user_content :=
              DocumentDataExtractor.build_user_content
                (sampleOptions none none none).extraction_prompt
                none
                (DocumentDataExtractor.get_document_image_uris
                  (sampleEnv (okAnalyze none)).convertFromBytes []
                  (sampleOptions none none none).page_start
                  (sampleOptions none none none).page_end)
            max_tokens := 4096
            temperature := (0.1 : Rat)
            top_p := (0.1 : Rat)
            logprobs := true } = Except.ok completion ∧
      completion.choices.head? = some choice ∧
      c1Result.data = choice.parsed ∧
      c1Result.confidence_scores
        = (sampleEnv (okAnalyze none)).evalConfidenceOpenai
            ((sampleEnv (okAnalyze none)).modelDump choice.parsed) choice) ∧
    ∀ m, DocumentDataExtractor.from_bytes
        { sampleEnv (okAnalyze none) with mergeConfidenceValues := m } []
        (sampleOptions none none none) = Except.ok c1Result) :=
  ⟨rfl, rfl,
    c1_llm_only_when_no_endpoint (sampleEnv (okAnalyze none)) []
      (sampleOptions none none none) rfl c1Result rfl⟩

/-- C2 (code evaluation at the failing input): the decoding parameters
sent in the extraction request are the hard-coded literals `4096`,
`0.1` and `0.1` from lines 126-128, not the caller-supplied
`options.max_tokens`, `options.temperature` and `options.top_p`: with
options constructed as `max_tokens=100, temperature=0.9, top_p=0.5`,
the request echoed back still carries `(4096, 0.1, 0.1)` while the
options carry `(100, 0.9, 0.5)`. -/
theorem c2_decoding_params_hardcoded :
    (DocumentDataExtractor.from_bytes (sampleEnv (okAnalyze none)) []
        (DocumentDataExtractorOptions.init "p" none none none "oe" "dep"
          100 ((9 : Rat) / 10) ((1 : Rat) / 2))).map
      (fun r => (r.data.max_tokens, r.data.temperature, r.data.top_p))
      = Except.ok ((4096 : Int), (0.1 : Rat), (0.1 : Rat)) ∧
    ((DocumentDataExtractorOptions.init "p" none none none "oe" "dep"
        100 ((9 : Rat) / 10) ((1 : Rat) / 2)).max_tokens,
     (DocumentDataExtractorOptions.init "p" none none none "oe" "dep"
        100 ((9 : Rat) / 10) ((1 : Rat) / 2)).temperature,
     (DocumentDataExtractorOptions.init "p" none none none "oe" "dep"
        100 ((9 : Rat) / 10) ((1 : Rat) / 2)).top_p)
      = ((100 : Int), (9 : Rat) / 10, (1 : Rat) / 2) := by
  constructor
  · rfl
  · rfl

/-- C3 counterexample: on a five-page document with `page_start = 4 >
page_end = 2`, the page-image rendering step does not fail with a
RangeError; it returns a page list (here the empty list, by Python
slice semantics `pages[3:2] = []`), refuting the claimed error
behaviour. -/
theorem c3_counterexample_inverted_range_returns_list :
    DocumentDataExtractor.get_document_image_uris constConv5 []
      (some 4) (some 2) = [] := by
  rfl

/-- C3 amended: with both bounds set (positive), the rendering step
never raises: it returns the Python slice `pages[page_start-1:page_end]`
mapped to image URIs, so an inverted range (`page_end < page_start`)
yields the empty list and an out-of-bounds `page_end` is clamped to the
end of the page list. -/
theorem c3_amended_python_slice (conv : Bytes → List Page) (b : Bytes)
    (s e : Int) (hs : 0 < s) (he : 0 < e) :
    (e < s → DocumentDataExtractor.get_document_image_uris conv b (some s) (some e) = []) ∧
    (((conv b).length : Int) ≤ e →
      DocumentDataExtractor.get_document_image_uris conv b (some s) (some e)
        = ((conv b).drop (s - 1).toNat).map pageImageUri) := by
  have hts : truthyInt (some s) = true := by
    simp [truthyInt]
    omega
  have hte : truthyInt (some e) = true := by
    simp [truthyInt]
    omega
  have hpe : pyIndex (conv b).length e = min e.toNat (conv b).length := by
    simp only [pyIndex]
    rw [if_neg (by omega : ¬ e < 0)]
  have hps : pyIndex (conv b).length (s - 1) = min (s - 1).toNat (conv b).length := by
    simp only [pyIndex]
    rw [if_neg (by omega : ¬ s - 1 < 0)]
  simp only [DocumentDataExtractor.get_document_image_uris, hts, hte,
    Bool.and_self, if_pos, Option.getD_some]
  constructor
  · intro hlt
    have h2 : ((conv b).take (pyIndex (conv b).length e)).length
        ≤ pyIndex (conv b).length (s - 1) := by
      simp only [List.length_take, hpe, hps]
      omega
    simp [pySlice, List.drop_eq_nil_of_le h2]
  · intro hle
    have h1 : pyIndex (conv b).length e = (conv b).length := by
      rw [hpe]
      omega
    simp only [pySlice, h1, List.take_length]
    by_cases hc : (s - 1).toNat ≤ (conv b).length
    · have h3 : pyIndex (conv b).length (s - 1) = (s - 1).toNat := by
        rw [hps]
        omega
      rw [h3]
    · have hlen : pyIndex (conv b).length (s - 1) = (conv b).length := by
        rw [hps]
        omega
      rw [hlen]
      rw [List.drop_length, List.drop_eq_nil_of_le (by omega)]

/-- Witness for C3 amended: the concrete five-page instantiation with
bounds `(4, 2)` satisfies the hypotheses, and the conclusion holds
there. -/
theorem c3_amended_python_slice_witness :
    (0 : Int) < 4 ∧ (0 : Int) < 2 ∧
    (((2 : Int) < 4 →
        DocumentDataExtractor.get_document_image_uris constConv5 []
          (some 4) (some 2) = []) ∧
     (((constConv5 []).length : Int) ≤ 2 →
        DocumentDataExtractor.get_document_image_uris constConv5 []
          (some 4) (some 2)
          = ((constConv5 []).drop ((4 : Int) - 1).toNat).map pageImageUri)) :=
  ⟨by decide, by decide,
    c3_amended_python_slice constConv5 [] 4 2 (by decide) (by decide)⟩

/-- C4: when exactly one of `page_start` and `page_end` is set and the
other is absent, the whole document is used: the page range string sent
to the layout service is `None` and the rendered page sequence is the
full page list, unsliced. -/
theorem c4_single_bound_full_document (conv : Bytes → List Page) (b : Bytes)
    (ps pe : Option Int)
    (h : (ps.isSome ∧ pe = none) ∨ (ps = none ∧ pe.isSome)) :
    DocumentDataExtractor.page_range_string ps pe = none ∧
    DocumentDataExtractor.get_document_image_uris conv b ps pe
      = (conv b).map pageImageUri := by
  have ht : (truthyInt ps && truthyInt pe) = false := by
    rcases h with ⟨_, hpe⟩ | ⟨hps, _⟩
    · subst hpe
      simp [truthyInt]
    · subst hps
      simp [truthyInt]
  constructor
  · simp [DocumentDataExtractor.page_range_string, ht]
  · simp [DocumentDataExtractor.get_document_image_uris, ht]

/-- Witness for C4: `page_start = 2` with `page_end` absent satisfies
the hypothesis, and the conclusion holds there. -/
theorem c4_single_bound_witness :
    (((some (2 : Int)).isSome ∧ (none : Option Int) = none) ∨
      ((some (2 : Int)) = none ∧ (none : Option Int).isSome)) ∧
    (DocumentDataExtractor.page_range_string (some 2) none = none ∧
     DocumentDataExtractor.get_document_image_uris constConv5 [] (some 2) none
       = (constConv5 []).map pageImageUri) :=
  ⟨Or.inl ⟨rfl, rfl⟩,
    c4_single_bound_full_document constConv5 [] (some 2) none
      (Or.inl ⟨rfl, rfl⟩)⟩

/-- C5: for every 5-page document (any renderer and byte input whose
rendering is any five pages) with `page_start = 2` and `page_end = 3`,
exactly the rendered pages 2 and 3 (1-based, inclusive) are selected,
in that order, and (in the echo instantiation, universal over all other
collaborators and options with those bounds) they are exactly the image
parts appended to the extraction request, in that order, after the text
parts. -/
theorem c5_pages_two_and_three (conv : Bytes → List Page) (b : Bytes)
    (p1 p2 p3 p4 p5 : Page)
    (h5 : conv b = [p1, p2, p3, p4, p5]) :
    DocumentDataExtractor.get_document_image_uris conv b (some 2) (some 3)
      = [pageImageUri p2, pageImageUri p3] ∧
    ∀ (analyze : AnalyzeRequest → Except String AnalyzeResult)
      (dump : ChatRequest → PyObj)
      (evalO : PyObj → Choice ChatRequest → ConfidenceMap)
      (evalD : PyObj → AnalyzeResult → ConfidenceMap)
      (merge : ConfidenceMap → ConfidenceMap → ConfidenceMap)
      (options : DocumentDataExtractorOptions)
      (res : ExtractionConfidenceResult ChatRequest),
      options.page_start = some 2 → options.page_end = some 3 →
      DocumentDataExtractor.from_bytes
          (echoEnv conv analyze dump evalO evalD merge) b options
        = Except.ok res →
      res.data.user_content
        = ContentPart.text options.extraction_prompt ::
          ((match (if truthyStr options.aiservices_endpoint then
              match analyze
                  { model_id := "prebuilt-layout"
                    body := b
                    pages := DocumentDataExtractor.page_range_string
                      options.page_start options.page_end
                    output_content_format := DocumentContentFormat.markdown
                    content_type := "application/pdf" } with
              | Except.ok r => r.content
              | Except.error _ => none
            else none) with
            | some s => if s = "" then [] else [ContentPart.text s]
            | none => []) ++
            [ContentPart.image_url (pageImageUri p2),
             ContentPart.image_url (pageImageUri p3)]) := by
  have himg : DocumentDataExtractor.get_document_image_uris conv b (some 2) (some 3)
      = [pageImageUri p2, pageImageUri p3] := by
    simp [DocumentDataExtractor.get_document_image_uris, truthyInt, h5,
      pySlice, pyIndex]
  refine ⟨himg, ?_⟩
  intro analyze dump evalO evalD merge options res hps hpe hok
  have himg2 : DocumentDataExtractor.get_document_image_uris conv b
      options.page_start options.page_end = [pageImageUri p2, pageImageUri p3] := by
    rw [hps, hpe]
    exact himg
  by_cases hd : truthyStr options.aiservices_endpoint = true
  · have hdi : DocumentDataExtractor.get_document_intelligence_client options
        = some { endpoint := options.aiservices_endpoint.getD "" } := by
      simp [DocumentDataExtractor.get_document_intelligence_client, hd]
    simp only [DocumentDataExtractor.from_bytes, hdi, echoEnv] at hok
    rw [hd]
    simp only [if_pos]
    split at hok
    · cases hok
    · rename_i r ha
      split at ha
      · injection ha with hr
        subst hr
        simp only [List.head?_cons] at hok
        split at hok
        · cases hok
        · rename_i overall hlook
          injection hok with hres
          rw [← hres]
          exact (build_user_content_eq _ _ _).trans (by rw [himg2]; rfl)
      · cases ha
  · have hd2 : truthyStr options.aiservices_endpoint = false := by
      simp only [Bool.not_eq_true] at hd
      exact hd
    have hdi : DocumentDataExtractor.get_document_intelligence_client options
        = none := by
      simp [DocumentDataExtractor.get_document_intelligence_client, hd2]
    simp only [DocumentDataExtractor.from_bytes, hdi, echoEnv] at hok
    simp only [List.head?_cons] at hok
    split at hok
    · cases hok
    · rename_i overall hlook
      injection hok with hres
      rw [← hres, hd2]
      simp only [Bool.false_eq_true, if_false]
      exact (build_user_content_eq _ _ _).trans (by rw [himg2]; rfl)

/-- Witness for C5: the concrete five-page renderer satisfies the
hypothesis, and the conclusion holds there (pages 2 and 3 carry PNG
bytes `[1]` and `[2]`). -/
theorem c5_pages_two_and_three_witness :
    constConv5 [] = [⟨[0]⟩, ⟨[1]⟩, ⟨[2]⟩, ⟨[3]⟩, ⟨[4]⟩] ∧
    (DocumentDataExtractor.get_document_image_uris constConv5 [] (some 2) (some 3)
      = [pageImageUri ⟨[1]⟩, pageImageUri ⟨[2]⟩] ∧
    ∀ (analyze : AnalyzeRequest → Except String AnalyzeResult)
      (dump : ChatRequest → PyObj)
      (evalO : PyObj → Choice ChatRequest → ConfidenceMap)
      (evalD : PyObj → AnalyzeResult → ConfidenceMap)
      (merge : ConfidenceMap → ConfidenceMap → ConfidenceMap)
      (options : DocumentDataExtractorOptions)
      (res : ExtractionConfidenceResult ChatRequest),
      options.page_start = some 2 → options.page_end = some 3 →
      DocumentDataExtractor.from_bytes
          (echoEnv constConv5 analyze dump evalO evalD merge) [] options
        = Except.ok res →
      res.data.user_content
        = ContentPart.text options.extraction_prompt ::
          ((match (if truthyStr options.aiservices_endpoint then
              match analyze
                  { model_id := "prebuilt-layout"
                    body := []
                    pages := DocumentDataExtractor.page_range_string
                      options.page_start options.page_end
                    output_content_format := DocumentContentFormat.markdown
                    content_type := "application/pdf" } with
              | Except.ok r => r.content
              | Except.error _ => none
            else none) with
            | some s => if s = "" then [] else [ContentPart.text s]
            | none => []) ++
            [ContentPart.image_url (pageImageUri ⟨[1]⟩),
             ContentPart.image_url (pageImageUri ⟨[2]⟩)])) :=
  ⟨rfl,
    c5_pages_two_and_three constConv5 [] ⟨[0]⟩ ⟨[1]⟩ ⟨[2]⟩ ⟨[3]⟩ ⟨[4]⟩ rfl⟩

/-- C6: for every document, options and collaborator behaviour (in the
echo instantiation, which makes the request observable), the user-turn
content list of the chat request is exactly: the caller-supplied
extraction prompt text first, then the layout markdown text if and only
if layout analysis ran (endpoint truthy) and produced truthy (present,
non-empty) content, then one image part per selected page image in
page order, and nothing else. -/
theorem c6_user_content_order (conv : Bytes → List Page)
    (analyze : AnalyzeRequest → Except String AnalyzeResult)
    (dump : ChatRequest → PyObj)
    (evalO : PyObj → Choice ChatRequest → ConfidenceMap)
    (evalD : PyObj → AnalyzeResult → ConfidenceMap)
    (merge : ConfidenceMap → ConfidenceMap → ConfidenceMap)
    (b : Bytes) (options : DocumentDataExtractorOptions)
    (res : ExtractionConfidenceResult ChatRequest)
    (hok : DocumentDataExtractor.from_bytes
        (echoEnv conv analyze dump evalO evalD merge) b options
      = Except.ok res) :
    res.data.user_content
      = ContentPart.text options.extraction_prompt ::
        ((match (if truthyStr options.aiservices_endpoint then
            match analyze
                { model_id := "prebuilt-layout"
                  body := b
                  pages := DocumentDataExtractor.page_range_string
                    options.page_start options.page_end
                  output_content_format := DocumentContentFormat.markdown
                  content_type := "application/pdf" } with
            | Except.ok r => r.content
            | Except.error _ => none
          else none) with
          | some s => if s = "" then [] else [ContentPart.text s]
          | none => []) ++
          (DocumentDataExtractor.get_document_image_uris conv b
            options.page_start options.page_end).map ContentPart.image_url) := by
  by_cases hd : truthyStr options.aiservices_endpoint = true
  · have hdi : DocumentDataExtractor.get_document_intelligence_client options
        = some { endpoint := options.aiservices_endpoint.getD "" } := by
      simp [DocumentDataExtractor.get_document_intelligence_client, hd]
    simp only [DocumentDataExtractor.from_bytes, hdi, echoEnv] at hok
    rw [hd]
    simp only [if_pos]
    split at hok
    · cases hok
    · rename_i r ha
      split at ha
      · injection ha with hr
        subst hr
        simp only [List.head?_cons] at hok
        split at hok
        · cases hok
        · rename_i overall hlook
          injection hok with hres
          rw [← hres]
          exact build_user_content_eq _ _ _
      · cases ha
  · have hd2 : truthyStr options.aiservices_endpoint = false := by
      simp only [Bool.not_eq_true] at hd
      exact hd
    have hdi : DocumentDataExtractor.get_document_intelligence_client options
        = none := by
      simp [DocumentDataExtractor.get_document_intelligence_client, hd2]
    simp only [DocumentDataExtractor.from_bytes, hdi, echoEnv] at hok
    simp only [List.head?_cons] at hok
    split at hok
    · cases hok
    · rename_i overall hlook
      injection hok with hres
      rw [← hres, hd2]
      simp only [Bool.false_eq_true, if_false]
      exact build_user_content_eq _ _ _

/-- Witness for C6: the concrete echo instantiation with a configured
endpoint and layout markdown "md" satisfies the hypothesis, and the
content list there is prompt, markdown, then the five page images. -/
theorem c6_user_content_witness :
    DocumentDataExtractor.from_bytes
        (echoEnv constConv5 (okAnalyze (some "md")) sampleDump sampleEvalO
          sampleEvalD sampleMerge)
        [] (sampleOptions none none (some "https://di.example.com"))
      = Except.ok mdResult ∧
    mdResult.data.user_content
      = ContentPart.text "p" ::
        ([ContentPart.text "md"] ++
          (DocumentDataExtractor.get_document_image_uris constConv5 []
            none none).map ContentPart.image_url) :=
  ⟨rfl,
    c6_user_content_order constConv5 (okAnalyze (some "md")) sampleDump
      sampleEvalO sampleEvalD sampleMerge []
      (sampleOptions none none (some "https://di.example.com")) mdResult rfl⟩

/-- C7 counterexample: with a layout endpoint configured and a layout
service that fails with "timeout", `from_bytes` does not proceed with
the LLM-only path and does not return a result: the failure propagates
and the call aborts with that error (there is no handler around the
layout call). -/
theorem c7_counterexample_layout_failure_aborts :
    DocumentDataExtractor.from_bytes (sampleEnv (failAnalyze "timeout")) []
        (sampleOptions none none (some "https://di.example.com"))
      = Except.error "timeout" := by
  rfl

/-- C7 amended: when a layout endpoint is configured and the
layout-analysis call fails, the failure propagates out of `from_bytes`
unchanged — the pipeline aborts instead of degrading to the LLM-only
confidence path. -/
theorem c7_amended_layout_failure_propagates {R : Type}
    (env : ExternalServices R) (b : Bytes)
    (options : DocumentDataExtractorOptions) (e : String)
    (hend : truthyStr options.aiservices_endpoint = true)
    (hfail : env.analyzeDocument
        { model_id := "prebuilt-layout"
          body := b
          pages := DocumentDataExtractor.page_range_string options.page_start
            options.page_end
          output_content_format := DocumentContentFormat.markdown
          content_type := "application/pdf" } = Except.error e) :
    DocumentDataExtractor.from_bytes env b options = Except.error e := by
  have hdi : DocumentDataExtractor.get_document_intelligence_client options
      = some { endpoint := options.aiservices_endpoint.getD "" } := by
    simp [DocumentDataExtractor.get_document_intelligence_client, hend]
  simp only [DocumentDataExtractor.from_bytes, hdi, hfail]

/-- Witness for C7 amended: the concrete failing-layout instantiation
satisfies both hypotheses, and the error propagates there. -/
theorem c7_amended_layout_failure_witness :
    truthyStr (sampleOptions none none
        (some "https://di.example.com")).aiservices_endpoint = true ∧
    (sampleEnv (failAnalyze "timeout")).analyzeDocument
        { model_id := "prebuilt-layout"
          body := []
          pages := none
          output_content_format := DocumentContentFormat.markdown
          content_type := "application/pdf" } = Except.error "timeout" ∧
    DocumentDataExtractor.from_bytes (sampleEnv (failAnalyze "timeout")) []
        (sampleOptions none none (some "https://di.example.com"))
      = Except.error "timeout" :=
  ⟨rfl, rfl,
    c7_amended_layout_failure_propagates (sampleEnv (failAnalyze "timeout"))
      [] (sampleOptions none none (some "https://di.example.com")) "timeout"
      rfl rfl⟩

/-- C8: when the layout service is invoked (endpoint truthy), the call
depends on the analyze function only through its value at the single
request with model identifier "prebuilt-layout", the document bytes as
body, markdown output format, content type "application/pdf" (the
document's binary MIME type — the pipeline rasterizes PDF bytes), and
the page range rendered as the inclusive "start-end" string exactly
when both bounds are set (truthy) and omitted (`None`) otherwise. -/
theorem c8_layout_request_parameters {R : Type} (env : ExternalServices R)
    (b : Bytes) (options : DocumentDataExtractorOptions)
    (f g : AnalyzeRequest → Except String AnalyzeResult)
    (hend : truthyStr options.aiservices_endpoint = true)
    (hfg : f { model_id := "prebuilt-layout"
               body := b
               pages := match options.page_start, options.page_end with
                 | some ps, some pe =>
                   if ps = 0 ∨ pe = 0 then none
                   else some (toString ps ++ "-" ++ toString pe)
                 | _, _ => none
               output_content_format := DocumentContentFormat.markdown
               content_type := "application/pdf" }
         = g { model_id := "prebuilt-layout"
               body := b
               pages := match options.page_start, options.page_end with
                 | some ps, some pe =>
                   if ps = 0 ∨ pe = 0 then none
                   else some (toString ps ++ "-" ++ toString pe)
                 | _, _ => none
               output_content_format := DocumentContentFormat.markdown
               content_type := "application/pdf" }) :
    DocumentDataExtractor.from_bytes { env with analyzeDocument := f } b options
      = DocumentDataExtractor.from_bytes { env with analyzeDocument := g } b options := by
  have hpr : DocumentDataExtractor.page_range_string options.page_start options.page_end
      = match options.page_start, options.page_end with
        | some ps, some pe =>
          if ps = 0 ∨ pe = 0 then none
          else some (toString ps ++ "-" ++ toString pe)
        | _, _ => none := by
    cases hps : options.page_start with
    | none => simp [DocumentDataExtractor.page_range_string, truthyInt]
    | some a =>
      cases hpe : options.page_end with
      | none => simp [DocumentDataExtractor.page_range_string, truthyInt]
      | some c =>
        by_cases ha : a = 0
        · simp [DocumentDataExtractor.page_range_string, truthyInt, ha]
        · by_cases hc : c = 0
          · simp [DocumentDataExtractor.page_range_string, truthyInt, ha, hc]
          · simp [DocumentDataExtractor.page_range_string, truthyInt, ha, hc]
  rw [← hpr] at hfg
  have hdi : DocumentDataExtractor.get_document_intelligence_client options
      = some { endpoint := options.aiservices_endpoint.getD "" } := by
    simp [DocumentDataExtractor.get_document_intelligence_client, hend]
  simp only [DocumentDataExtractor.from_bytes, hdi]
  rw [hfg]

/-- Witness for C8: a concrete instantiation with endpoint configured
and bounds `(2, 3)` satisfies both hypotheses, and the conclusion holds
there. -/
theorem c8_layout_request_witness :
    truthyStr (sampleOptions (some 2) (some 3)
        (some "https://di.example.com")).aiservices_endpoint = true ∧
    okAnalyze (some "md")
        { model_id := "prebuilt-layout"
          body := []
          pages := some "2-3"
          output_content_format := DocumentContentFormat.markdown
          content_type := "application/pdf" }
      = okAnalyze (some "md")
        { model_id := "prebuilt-layout"
          body := []
          pages := some "2-3"
          output_content_format := DocumentContentFormat.markdown
          content_type := "application/pdf" } ∧
    DocumentDataExtractor.from_bytes
        { sampleEnv (okAnalyze none) with analyzeDocument := okAnalyze (some "md") }
        [] (sampleOptions (some 2) (some 3) (some "https://di.example.com"))
      = DocumentDataExtractor.from_bytes
        { sampleEnv (okAnalyze none) with analyzeDocument := okAnalyze (some "md") }
        [] (sampleOptions (some 2) (some 3) (some "https://di.example.com")) :=
  ⟨rfl, rfl,
    c8_layout_request_parameters (sampleEnv (okAnalyze none)) []
      (sampleOptions (some 2) (some 3) (some "https://di.example.com"))
      (okAnalyze (some "md")) (okAnalyze (some "md")) rfl rfl⟩

theorem halfMap_ok : confidenceMapOk halfMap := by
  constructor
  · exact ⟨(1 : Rat) / 2, rfl⟩
  · intro p hp
    cases hp with
    | head => constructor <;> norm_num
    | tail _ h => cases h

/-- C9: under the hypothesis that the confidence evaluators and the
merger always return maps that contain the OVERALL key and whose values
all lie in [0, 1], every successful `from_bytes` result has a
confidence map containing the OVERALL key with all values in [0, 1],
and its `overall_confidence` field equals the map's OVERALL entry. -/
theorem c9_confidence_invariants {R : Type} (env : ExternalServices R)
    (b : Bytes) (options : DocumentDataExtractorOptions)
    (res : ExtractionConfidenceResult R)
    (hO : ∀ d c, confidenceMapOk (env.evalConfidenceOpenai d c))
    (hD : ∀ d a, confidenceMapOk (env.evalConfidenceDi d a))
    (hM : ∀ m1 m2, confidenceMapOk (env.mergeConfidenceValues m1 m2))
    (hok : DocumentDataExtractor.from_bytes env b options = Except.ok res) :
    confidenceMapOk res.confidence_scores ∧
    res.confidence_scores.lookup OVERALL_CONFIDENCE_KEY
      = some res.overall_confidence := by
  simp only [DocumentDataExtractor.from_bytes] at hok
  cases hdi : DocumentDataExtractor.get_document_intelligence_client options with
  | none =>
    simp only [hdi] at hok
    split at hok
    · cases hok
    · rename_i completion hpc
      split at hok
      · cases hok
      · rename_i choice hhead
        split at hok
        · cases hok
        · rename_i overall hlook
          injection hok with hres
          rw [← hres]
          exact ⟨hO _ _, hlook⟩
  | some c =>
    simp only [hdi] at hok
    split at hok
    · cases hok
    · rename_i r ha
      split at ha
      · injection ha with hr
        subst hr
        split at hok
        · cases hok
        · rename_i completion hpc
          split at hok
          · cases hok
          · rename_i choice hhead
            split at hok
            · cases hok
            · rename_i overall hlook
              injection hok with hres
              rw [← hres]
              exact ⟨hM _ _, hlook⟩
      · cases ha

/-- Witness for C9: the concrete endpoint-configured echo instantiation
with constant well-formed evaluator and merger outputs satisfies every
hypothesis, and the conclusion holds at its result. -/
theorem c9_confidence_witness :
    (∀ d c, confidenceMapOk
        ((sampleEnv (okAnalyze (some "md"))).evalConfidenceOpenai d c)) ∧
    (∀ d a, confidenceMapOk
        ((sampleEnv (okAnalyze (some "md"))).evalConfidenceDi d a)) ∧
    (∀ m1 m2, confidenceMapOk
        (({ sampleEnv (okAnalyze (some "md")) with
            mergeConfidenceValues := fun _ _ => halfMap } :
          ExternalServices ChatRequest).mergeConfidenceValues m1 m2)) ∧
    DocumentDataExtractor.from_bytes
        { sampleEnv (okAnalyze (some "md")) with
          mergeConfidenceValues := fun _ _ => halfMap } []
        (sampleOptions none none (some "https://di.example.com"))
      = Except.ok mdResult ∧
    (confidenceMapOk mdResult.confidence_scores ∧
     mdResult.confidence_scores.lookup OVERALL_CONFIDENCE_KEY
       = some mdResult.overall_confidence) :=
  ⟨fun _ _ => halfMap_ok, fun _ _ => halfMap_ok, fun _ _ => halfMap_ok, rfl,
    c9_confidence_invariants
      { sampleEnv (okAnalyze (some "md")) with
        mergeConfidenceValues := fun _ _ => halfMap } []
      (sampleOptions none none (some "https://di.example.com")) mdResult
      (fun _ _ => halfMap_ok) (fun _ _ => halfMap_ok) (fun _ _ => halfMap_ok)
      rfl⟩
